import Mathlib

/-!
Verification of the Webrecog real-time attendance pipeline.

Shallow embedding of the parts of the repository the claims are about:
* the `attendance_records` table schema
  (`face-recognition-attendance/sql_scripts/01_create_tables.sql`),
* the polling sync layer `checkForNewAttendance` (TeacherDashboard source),
* the WebSocket `frame_result` handler (`Myweb/src/StudentDashboard.jsx`),
* the motion estimator / capture gate / stream teardown
  (`Myweb/src/LiveVideoStream.jsx`).

Machine numbers are modelled with `Nat`, `Int` and `ℚ`; JS `null`/`undefined`
is modelled with `Option`; a JS function that can throw is modelled with
`Except`.
-/

namespace Webrecog

/-! ## Durable store schema: `attendance_records`
From `sql_scripts/01_create_tables.sql`, lines 56-71.  The table has
`id UUID PRIMARY KEY`, a foreign key `session_id REFERENCES
attendance_sessions(id)`, `NOT NULL` columns (modelled by non-optional
fields) and `CHECK (status IN ('present','late','absent'))`.  UUIDs are
modelled as `Nat`, timestamps as `Int`. -/

structure AttendanceRow where
  id : Nat
  session_id : Nat
  student_email : String
  student_id : String
  check_in_time : Int
  status : String
  deriving DecidableEq, Repr

def validStatuses : List String := ["present", "late", "absent"]

/-- The row-level `CHECK` constraint of `attendance_records`. -/
def rowChecksOk (r : AttendanceRow) : Bool :=
  validStatuses.contains r.status

/-- An insert is accepted by the store iff the `CHECK` constraint holds, the
foreign key `session_id` resolves, and the `id` primary key is fresh.  The
DDL declares no other uniqueness constraint on `attendance_records`. -/
def insertAccepted (sessions : List Nat) (table : List AttendanceRow)
    (r : AttendanceRow) : Bool :=
  rowChecksOk r && sessions.contains r.session_id
    && table.all (fun x => x.id != r.id)

def insertRow (sessions : List Nat) (table : List AttendanceRow)
    (r : AttendanceRow) : List AttendanceRow :=
  if insertAccepted sessions table r then table ++ [r] else table

/-- All rows of the table for one (session, student) pair. -/
def rowsForPair (table : List AttendanceRow) (s : Nat) (st : String) :
    List AttendanceRow :=
  table.filter (fun r => r.session_id == s && r.student_id == st)

/-- Claim C1 counterexample: the schema does not enforce at-most-one row per
(session, student).  Two rows with the same `(session_id, student_id)` but
distinct `id`s are both accepted into the store, leaving two attendance rows
for the pair (session 7, student "s001"). -/
theorem C1_counterexample :
    (rowsForPair
      (insertRow [7]
        (insertRow [7] []
          { id := 1, session_id := 7, student_email := "a@u.ac.th",
            student_id := "s001", check_in_time := 100, status := "present" })
        { id := 2, session_id := 7, student_email := "a@u.ac.th",
          student_id := "s001", check_in_time := 200, status := "late" })
      7 "s001").length = 2 := by decide

/-- Claim C1 (amended): the only uniqueness the `attendance_records` DDL
enforces is the `id` primary key.  Any two rows with distinct `id`s that pass
the row checks and foreign key are both accepted, regardless of whether their
`(session_id, student_id)` pairs coincide, so the store itself never rejects
a duplicate attendance record for a pair. -/
theorem C1_amended_only_pk_unique (sessions : List Nat)
    (r1 r2 : AttendanceRow) (hid : r1.id ≠ r2.id)
    (hc1 : rowChecksOk r1 = true) (hc2 : rowChecksOk r2 = true)
    (hf1 : sessions.contains r1.session_id = true)
    (hf2 : sessions.contains r2.session_id = true) :
    insertRow sessions (insertRow sessions [] r1) r2 = [r1, r2] := by
  simp only [insertRow, insertAccepted, hc1, hc2, hf1, hf2, List.all_nil,
    Bool.and_true, Bool.true_and, if_true]
  have h1 : List.all [r1] (fun x => x.id != r2.id) = true := by
    simp [List.all_cons, bne_iff_ne, hid]
  simp [h1]

/-- Witness for `C1_amended_only_pk_unique` at a concrete input. -/
theorem C1_amended_witness :
    insertRow [7]
      (insertRow [7] []
        { id := 1, session_id := 7, student_email := "a@u.ac.th",
          student_id := "s001", check_in_time := 100, status := "present" })
      { id := 2, session_id := 7, student_email := "a@u.ac.th",
        student_id := "s001", check_in_time := 200, status := "late" }
    = [{ id := 1, session_id := 7, student_email := "a@u.ac.th",
          student_id := "s001", check_in_time := 100, status := "present" },
       { id := 2, session_id := 7, student_email := "a@u.ac.th",
          student_id := "s001", check_in_time := 200, status := "late" }] :=
  C1_amended_only_pk_unique [7] _ _ (by decide) (by decide) (by decide)
    (by decide) (by decide)

/-! ## Sync/Notification layer: `checkForNewAttendance`
From the teacher dashboard source (`src/unnamed/part_000`, lines 194-240).
Each polling tick fetches the session's attendance records ordered by
`check_in_time` descending with `limit(5)`, looks at `latestRecords[0]` only,
and when the watermark `lastAttendanceCheck` is null or older than that
record's time, emits one notification and sets the watermark to that time. -/

structure AttRecord where
  student_id : String
  full_name : Option String
  check_in_time : Int
  status : String
  detection_method : Option String
  deriving DecidableEq, Repr

structure Notification where
  studentName : String
  statusText : String
  methodText : String
  deriving DecidableEq, Repr

def isPrefixList : List Char → List Char → Bool
  | [], _ => true
  | _ :: _, [] => false
  | a :: as, b :: bs => a == b && isPrefixList as bs

def containsSub (sub : List Char) : List Char → Bool
  | [] => isPrefixList sub []
  | b :: bs => isPrefixList sub (b :: bs) || containsSub sub bs

/-- JS `String.prototype.includes`, as substring containment on the
character list. -/
def stringIncludes (s sub : String) : Bool :=
  containsSub sub.data s.data

/-- `record.detection_method?.includes("motion")`: `none` (null detection
method) is falsy. -/
def methodIncludesMotion (m : Option String) : Bool :=
  match m with
  | none => false
  | some s => stringIncludes s "motion"

/-- The notification text assembled by `addNotification` in
`checkForNewAttendance`. -/
def notifOf (r : AttRecord) : Notification :=
  { studentName := r.full_name.getD r.student_id,
    statusText :=
      if r.status == "present" then "มาเรียน"
      else if r.status == "late" then "มาสาย" else "ขาดเรียน",
    methodText :=
      if methodIncludesMotion r.detection_method then "Motion Detection"
      else "Manual Capture" }

/-- Descending insertion by `check_in_time`, used to model the query's
`order(check_in_time, descending)`. -/
def insertDesc (r : AttRecord) : List AttRecord → List AttRecord
  | [] => [r]
  | x :: xs =>
    if x.check_in_time < r.check_in_time then r :: x :: xs
    else x :: insertDesc r xs

/-- The store query: session records ordered by `check_in_time` descending,
`limit(5)`. -/
def queryLatest (rows : List AttRecord) : List AttRecord :=
  (rows.foldr insertDesc []).take 5

/-- `!lastAttendanceCheck || latestTime > lastAttendanceCheck`. -/
def watermarkPasses (lastCheck : Option Int) (latestTime : Int) : Bool :=
  match lastCheck with
  | none => true
  | some t => decide (t < latestTime)

/-- One polling tick of `checkForNewAttendance`: given the current watermark
and the session's stored rows, returns the notifications emitted this tick
and the new watermark. -/
def checkForNewAttendance (lastCheck : Option Int) (rows : List AttRecord) :
    List Notification × Option Int :=
  match queryLatest rows with
  | [] => ([], lastCheck)
  | latest :: _ =>
    if watermarkPasses lastCheck latest.check_in_time then
      ([notifOf latest], some latest.check_in_time)
    else ([], lastCheck)

/-- Claim C2 counterexample: with watermark 0 and two stored records at times
10 and 5 — both newer than the watermark — one tick emits a single
notification (for the time-10 record only) and jumps the watermark to 10, so
the time-5 record never receives its own notification; the claim demands two
notifications. -/
theorem C2_counterexample :
    (([{ student_id := "s1", full_name := some "Alice", check_in_time := 10,
          status := "present", detection_method := some "motion_detection" },
        { student_id := "s2", full_name := some "Bob", check_in_time := 5,
          status := "present", detection_method := some "manual" }]
          : List AttRecord).filter
        (fun r => decide (0 < r.check_in_time))).length = 2 ∧
    checkForNewAttendance (some 0)
      [{ student_id := "s1", full_name := some "Alice", check_in_time := 10,
          status := "present", detection_method := some "motion_detection" },
       { student_id := "s2", full_name := some "Bob", check_in_time := 5,
          status := "present", detection_method := some "manual" }]
      = ([{ studentName := "Alice", statusText := "มาเรียน",
            methodText := "Motion Detection" }], some 10) := by
  decide

/-- Claim C2 (amended): each polling tick emits at most one notification.
When the newest fetched record's check-in time passes the watermark, exactly
one notification — for that newest record only — is emitted and the
watermark advances to its timestamp; any other record that also arrived
since the previous poll is skipped and, the watermark now being past it,
never notified. -/
theorem C2_amended_one_notification (lastCheck : Option Int)
    (rows rest : List AttRecord) (r : AttRecord)
    (hq : queryLatest rows = r :: rest)
    (hnew : watermarkPasses lastCheck r.check_in_time = true) :
    checkForNewAttendance lastCheck rows = ([notifOf r], some r.check_in_time) := by
  simp [checkForNewAttendance, hq, hnew]

/-- Witness for `C2_amended_one_notification` at the counterexample input. -/
theorem C2_amended_witness :
    checkForNewAttendance (some 0)
      [{ student_id := "s1", full_name := some "Alice", check_in_time := 10,
          status := "present", detection_method := some "motion_detection" },
       { student_id := "s2", full_name := some "Bob", check_in_time := 5,
          status := "present", detection_method := some "manual" }]
      = ([notifOf { student_id := "s1", full_name := some "Alice",
                    check_in_time := 10, status := "present",
                    detection_method := some "motion_detection" }], some 10) :=
  C2_amended_one_notification (some 0) _
    [{ student_id := "s2", full_name := some "Bob", check_in_time := 5,
       status := "present", detection_method := some "manual" }]
    { student_id := "s1", full_name := some "Alice", check_in_time := 10,
      status := "present", detection_method := some "motion_detection" }
    (by decide) (by decide)

/-! ## Push channel: the WebSocket `frame_result` handler
From `Myweb/src/StudentDashboard.jsx`, lines 389-410.  On a successful
`frame_result` message, every element of `new_attendance` is appended to
`attendanceList` with a freshly generated local id
(`Date.now() + Math.random()`, modelled as a supplied fresh id). -/

structure WsAttendance where
  student_name : String
  student_id : String
  status : String
  confidence : ℚ
  timestamp : Int
  deriving DecidableEq, Repr

structure DisplayEntry where
  entryId : Nat
  studentName : String
  studentId : String
  status : String
  confidence : ℚ
  timestamp : Int
  deriving DecidableEq, Repr

/-- The list entry built in the `forEach` body of the handler. -/
def entryOf (i : Nat) (a : WsAttendance) : DisplayEntry :=
  { entryId := i, studentName := a.student_name, studentId := a.student_id,
    status := a.status, confidence := a.confidence, timestamp := a.timestamp }

/-- The `frame_result` branch of `onmessage`: when `data.success &&
data.new_attendance`, each attendance element is appended to the previous
list, unconditionally. -/
def applyFrameResult (success : Bool) (newAttendance : List WsAttendance)
    (ids : List Nat) (attendanceList : List DisplayEntry) :
    List DisplayEntry :=
  if success then attendanceList ++ List.zipWith entryOf ids newAttendance
  else attendanceList

/-- The displayed entries carrying the same attendance record (same student
and timestamp) as `a`. -/
def entriesFor (a : WsAttendance) (l : List DisplayEntry) :
    List DisplayEntry :=
  l.filter (fun e => e.studentId == a.student_id && e.timestamp == a.timestamp)

/-- Claim C3 counterexample: delivering the same `frame_result` attendance
record twice adds a second displayed entry for it — after the first delivery
the record appears once, after the redelivery it appears twice.  The handler
performs no dedup. -/
theorem C3_counterexample :
    (entriesFor
      { student_name := "Alice", student_id := "s1", status := "present",
        confidence := 9/10, timestamp := 100 }
      (applyFrameResult true
        [{ student_name := "Alice", student_id := "s1", status := "present",
           confidence := 9/10, timestamp := 100 }] [1] [])).length = 1 ∧
    (entriesFor
      { student_name := "Alice", student_id := "s1", status := "present",
        confidence := 9/10, timestamp := 100 }
      (applyFrameResult true
        [{ student_name := "Alice", student_id := "s1", status := "present",
           confidence := 9/10, timestamp := 100 }] [2]
        (applyFrameResult true
          [{ student_name := "Alice", student_id := "s1", status := "present",
             confidence := 9/10, timestamp := 100 }] [1] []))).length = 2 := by
  decide

/-- Claim C3 (amended): the push-channel handler appends an entry for every
attendance element of every successful `frame_result` message, with a fresh
local id and no duplicate check, so each redelivery of a record grows the
number of displayed entries for that record by one. -/
theorem C3_amended_redelivery_duplicates (a : WsAttendance)
    (prev : List DisplayEntry) (i : Nat) :
    (entriesFor a (applyFrameResult true [a] [i] prev)).length
      = (entriesFor a prev).length + 1 := by
  simp [applyFrameResult, entriesFor, entryOf, List.filter_append]

/-! ## Motion estimator and capture gate
From `Myweb/src/LiveVideoStream.jsx`.  A frame is modelled by its data after
the 160×120 downsampling step of `detectMotion`: a list of (r, g, b) sampled
pixels (the loop steps over the RGBA array by 4, never reading alpha).  The
canvas `drawImage`/`getImageData` steps can throw (caught at lines 189-192);
`readable = false` models a frame on which they do. -/

abbrev FrameData := List (Nat × Nat × Nat)

structure Frame where
  data : FrameData
  readable : Bool
  deriving DecidableEq, Repr

def getImageData (f : Frame) : Except String FrameData :=
  if f.readable then .ok f.data else .error "canvas read failure"

/-- `(r + g + b) / 3`, the per-pixel luminance of `detectMotion`. -/
def grayOf (p : Nat × Nat × Nat) : ℚ :=
  ((p.1 : ℚ) + p.2.1 + p.2.2) / 3

/-- The accumulated absolute luminance delta of the comparison loop. -/
def motionDiff (d1 d2 : FrameData) : ℚ :=
  ((d1.zip d2).map (fun pq => |grayOf pq.1 - grayOf pq.2|)).sum

/-- `diff / (width * height * 255)` with `width = 160`, `height = 120`. -/
def motionStrengthOf (d1 d2 : FrameData) : ℚ :=
  motionDiff d1 d2 / (160 * 120 * 255)

/-- The body of the `try` block of `detectMotion`: read both frames' pixel
data and compare; any canvas failure escapes as an error. -/
def detectMotionRun (curr prev : Frame) : Except String ℚ :=
  match getImageData curr with
  | .error e => .error e
  | .ok d1 =>
    match getImageData prev with
    | .error e => .error e
    | .ok d2 => .ok (motionStrengthOf d1 d2)

/-- `detectMotion(currentFrame, previousFrame)`.  The result lives in
`Option ℚ` so that a JS `null`/`undefined` return would be `none`; the
function in fact always returns a number: `0` when `previousFrame` is null
(`if (!previousFrame) return 0`) and `0` from the `catch` block when the
comparison throws. -/
def detectMotion (curr : Frame) (prev : Option Frame) : Option ℚ :=
  match prev with
  | none => some 0
  | some p =>
    match detectMotionRun curr p with
    | .ok v => some v
    | .error _ => some 0

/-! Session configuration, from the `attendance_sessions` row the component
receives as `currentSession`. -/

structure Session where
  id : Nat
  session_type : Option String
  motion_threshold : Option ℚ
  start_time : Int
  deriving DecidableEq, Repr

/-- `currentSession?.motion_threshold || 0.1`: a missing threshold and the
falsy value `0` both fall back to `0.1`. -/
def effectiveThreshold (motion_threshold : Option ℚ) : ℚ :=
  match motion_threshold with
  | none => 1/10
  | some t => if t = 0 then 1/10 else t

/-- The component state touched by one `checkMotionAndCapture` tick. -/
structure CaptureState where
  prevFrame : Option Frame
  motionDetected : Bool
  lastMotionStrength : ℚ
  deriving DecidableEq, Repr

/-- What a tick does outward: nothing, or a call to
`sendFrameForMotionDetection` with the sampled strength. -/
inductive TickAction where
  | idle : TickAction
  | dispatch (strength : ℚ) : TickAction
  deriving DecidableEq, Repr

/-- The motion strength the tick computes:
`detectMotion(video, previousFrameRef.current)`. -/
def sampledStrength (st : CaptureState) (video : Frame) : ℚ :=
  (detectMotion video st.prevFrame).getD 0

/-- One tick of `checkMotionAndCapture` (lines 195-249): compute the motion
strength against the stored previous frame, store the current frame; on the
very first tick (no previous frame) return before the threshold check
("Skip first frame comparison"); otherwise dispatch exactly when
`motionStrength > motionThreshold`, updating the stats either way. -/
def checkMotionAndCapture (sess : Session) (st : CaptureState)
    (video : Frame) : CaptureState × TickAction :=
  let strength := sampledStrength st video
  match st.prevFrame with
  | none => ({ st with prevFrame := some video }, .idle)
  | some _ =>
    let thr := effectiveThreshold sess.motion_threshold
    if strength > thr then
      ({ prevFrame := some video, motionDetected := true,
         lastMotionStrength := strength }, .dispatch strength)
    else
      ({ st with prevFrame := some video, lastMotionStrength := strength },
       .idle)

/-- The body posted to `/api/motion/snapshot`. -/
structure MotionSnapshotRequest where
  session_id : Nat
  motion_strength : ℚ
  device_id : String
  deriving DecidableEq, Repr

/-- `sendFrameForMotionDetection` (lines 251-304): returns without posting
when refs or session are missing, or when `!currentSession.session_type ||
currentSession.session_type !== 'motion_detection'` (an empty string is
falsy and also returns). -/
def sendFrameForMotionDetection (sess : Option Session)
    (hasVideo hasCanvas : Bool) (strength : ℚ) :
    Option MotionSnapshotRequest :=
  if !hasVideo || !hasCanvas then none else
  match sess with
  | none => none
  | some s =>
    match s.session_type with
    | none => none
    | some ty =>
      if ty = "" then none
      else if ty ≠ "motion_detection" then none
      else some { session_id := s.id, motion_strength := strength,
                  device_id := "webcam_live_stream" }

/-! ### Theorems about the capture gate -/

/-- Claim C4: a sampled motion reading strictly below the session's
motion threshold triggers nothing — the tick performs no dispatch to the
recognition service and records no event of any kind. -/
theorem C4_below_threshold_no_event (sess : Session) (st : CaptureState)
    (video : Frame)
    (h : sampledStrength st video < effectiveThreshold sess.motion_threshold) :
    (checkMotionAndCapture sess st video).2 = TickAction.idle := by
  have hle : ¬ effectiveThreshold sess.motion_threshold
      < sampledStrength st video := not_lt.mpr h.le
  cases hp : st.prevFrame with
  | none => simp [checkMotionAndCapture, hp]
  | some p => simp [checkMotionAndCapture, hp, hle]

def sessC4 : Session :=
  { id := 1, session_type := some "motion_detection",
    motion_threshold := some (1/5), start_time := 0 }

def stC4 : CaptureState :=
  { prevFrame := some { data := [(0, 0, 0)], readable := true },
    motionDetected := false, lastMotionStrength := 0 }

def vidC4 : Frame := { data := [(30, 30, 30)], readable := true }

/-- Witness for `C4_below_threshold_no_event`: threshold `0.2`, sampled
strength `30 / 4896000 < 0.2`, and the tick stays idle. -/
theorem C4_witness :
    sampledStrength stC4 vidC4 < effectiveThreshold sessC4.motion_threshold ∧
    (checkMotionAndCapture sessC4 stC4 vidC4).2 = TickAction.idle :=
  ⟨by
    norm_num [sampledStrength, detectMotion, detectMotionRun, getImageData,
      motionStrengthOf, motionDiff, grayOf, stC4, vidC4, sessC4,
      effectiveThreshold],
   C4_below_threshold_no_event sessC4 stC4 vidC4 (by
    norm_num [sampledStrength, detectMotion, detectMotionRun, getImageData,
      motionStrengthOf, motionDiff, grayOf, stC4, vidC4, sessC4,
      effectiveThreshold])⟩

def sessC5 : Session :=
  { id := 2, session_type := some "motion_detection",
    motion_threshold := some (255/4896000), start_time := 0 }

def stC5 : CaptureState :=
  { prevFrame := some { data := [(0, 0, 0)], readable := true },
    motionDetected := false, lastMotionStrength := 0 }

def vidC5 : Frame := { data := [(255, 255, 255)], readable := true }

/-- Claim C5 counterexample: a reading whose strength exactly equals the
session's motion threshold does not proceed — the dispatch test is the
strict `motionStrength > motionThreshold`, so at equality the tick triggers
nothing, contrary to the claim that such a reading is dispatched when the
remaining rules permit. -/
theorem C5_counterexample :
    sampledStrength stC5 vidC5 = effectiveThreshold sessC5.motion_threshold ∧
    (checkMotionAndCapture sessC5 stC5 vidC5).2 = TickAction.idle := by
  constructor
  · norm_num [sampledStrength, detectMotion, detectMotionRun, getImageData,
      motionStrengthOf, motionDiff, grayOf, stC5, vidC5, sessC5,
      effectiveThreshold]
  · have hle : ¬ effectiveThreshold sessC5.motion_threshold
        < sampledStrength stC5 vidC5 := by
      norm_num [sampledStrength, detectMotion, detectMotionRun, getImageData,
        motionStrengthOf, motionDiff, grayOf, stC5, vidC5, sessC5,
        effectiveThreshold]
    have hp : stC5.prevFrame
        = some { data := [(0, 0, 0)], readable := true } := rfl
    simp [checkMotionAndCapture, hp, hle]

/-- Claim C5 (amended): the gate dispatches only for readings strictly above
the threshold; a reading exactly at the threshold is discarded like
sub-threshold noise, with no event of any kind. -/
theorem C5_amended_at_threshold_no_event (sess : Session) (st : CaptureState)
    (video : Frame)
    (h : sampledStrength st video = effectiveThreshold sess.motion_threshold) :
    (checkMotionAndCapture sess st video).2 = TickAction.idle := by
  have hle : ¬ effectiveThreshold sess.motion_threshold
      < sampledStrength st video := not_lt.mpr h.le
  cases hp : st.prevFrame with
  | none => simp [checkMotionAndCapture, hp]
  | some p => simp [checkMotionAndCapture, hp, hle]

/-- Witness for `C5_amended_at_threshold_no_event` at the counterexample
input. -/
theorem C5_amended_witness :
    sampledStrength stC5 vidC5 = effectiveThreshold sessC5.motion_threshold ∧
    (checkMotionAndCapture sessC5 stC5 vidC5).2 = TickAction.idle :=
  ⟨by
    norm_num [sampledStrength, detectMotion, detectMotionRun, getImageData,
      motionStrengthOf, motionDiff, grayOf, stC5, vidC5, sessC5,
      effectiveThreshold],
   C5_amended_at_threshold_no_event sessC5 stC5 vidC5 (by
    norm_num [sampledStrength, detectMotion, detectMotionRun, getImageData,
      motionStrengthOf, motionDiff, grayOf, stC5, vidC5, sessC5,
      effectiveThreshold])⟩

/-! ### Theorems about the motion estimator -/

/-- Claim C6 counterexample: on the very first call (`previousFrame` null),
`detectMotion` returns the number `0` (`if (!previousFrame) return 0`), not
`null`/`undefined`. -/
theorem C6_counterexample :
    detectMotion { data := [(0, 0, 0)], readable := true } none = some 0 ∧
    detectMotion { data := [(0, 0, 0)], readable := true } none ≠ none := by
  exact ⟨rfl, by simp [detectMotion]⟩

/-- Claim C6 (amended): on the very first call the estimator returns the
numeric value `0` rather than `null`/`undefined`; the caller independently
does not trigger on the first tick — with no stored previous frame,
`checkMotionAndCapture` just stores the frame and returns before the
threshold check. -/
theorem C6_amended_first_call (sess : Session) (st : CaptureState)
    (video : Frame) (h : st.prevFrame = none) :
    detectMotion video st.prevFrame = some 0 ∧
    (checkMotionAndCapture sess st video).2 = TickAction.idle ∧
    (checkMotionAndCapture sess st video).1.prevFrame = some video := by
  refine ⟨by rw [h]; rfl, ?_, ?_⟩ <;> simp [checkMotionAndCapture, h]

def sessC6 : Session :=
  { id := 3, session_type := some "motion_detection",
    motion_threshold := some (1/5), start_time := 0 }

/-- Witness for `C6_amended_first_call` at a concrete first tick. -/
theorem C6_amended_witness :
    detectMotion { data := [(9, 9, 9)], readable := true }
      (CaptureState.prevFrame
        { prevFrame := none, motionDetected := false,
          lastMotionStrength := 0 }) = some 0 ∧
    (checkMotionAndCapture sessC6
      { prevFrame := none, motionDetected := false, lastMotionStrength := 0 }
      { data := [(9, 9, 9)], readable := true }).2 = TickAction.idle ∧
    (checkMotionAndCapture sessC6
      { prevFrame := none, motionDetected := false, lastMotionStrength := 0 }
      { data := [(9, 9, 9)], readable := true }).1.prevFrame
      = some { data := [(9, 9, 9)], readable := true } :=
  C6_amended_first_call sessC6
    { prevFrame := none, motionDetected := false, lastMotionStrength := 0 }
    { data := [(9, 9, 9)], readable := true } rfl

theorem motionDiff_self (d : FrameData) : motionDiff d d = 0 := by
  induction d with
  | nil => rfl
  | cons p d ih =>
    simp only [motionDiff, List.zip_cons_cons, List.map_cons, List.sum_cons,
      sub_self, abs_zero, zero_add] at ih ⊢
    exact ih

/-- Claim C7: for readable frames that are pixel-equal after downsampling,
`detectMotion` deterministically returns motion strength `0`. -/
theorem C7_identical_frames_zero (curr prev : Frame)
    (h1 : curr.readable = true) (h2 : prev.readable = true)
    (h : curr.data = prev.data) :
    detectMotion curr (some prev) = some 0 := by
  have e1 : getImageData curr = .ok curr.data := by simp [getImageData, h1]
  have e2 : getImageData prev = .ok prev.data := by simp [getImageData, h2]
  have hrun : detectMotionRun curr prev
      = .ok (motionStrengthOf curr.data prev.data) := by
    simp [detectMotionRun, e1, e2]
  have hz : motionStrengthOf curr.data prev.data = 0 := by
    rw [h, motionStrengthOf, motionDiff_self, zero_div]
  simp [detectMotion, hrun, hz]

/-- Witness for `C7_identical_frames_zero` on a concrete identical pair. -/
theorem C7_witness :
    detectMotion { data := [(10, 20, 30), (40, 50, 60)], readable := true }
      (some { data := [(10, 20, 30), (40, 50, 60)], readable := true })
      = some 0 :=
  C7_identical_frames_zero
    { data := [(10, 20, 30), (40, 50, 60)], readable := true }
    { data := [(10, 20, 30), (40, 50, 60)], readable := true }
    rfl rfl rfl

/-- Claim C9: when the frame comparison raises an internal error, the
`catch` block makes `detectMotion` return `0` instead of propagating, and —
the effective threshold being nonnegative — the strength `0` never exceeds
it, so the tick never dispatches. -/
theorem C9_error_yields_zero (sess : Session) (st : CaptureState)
    (video p : Frame) (hp : st.prevFrame = some p)
    (herr : (detectMotionRun video p).isOk = false)
    (hthr : 0 ≤ effectiveThreshold sess.motion_threshold) :
    detectMotion video st.prevFrame = some 0 ∧
    (checkMotionAndCapture sess st video).2 = TickAction.idle := by
  have hz : detectMotion video st.prevFrame = some 0 := by
    rw [hp]
    cases hr : detectMotionRun video p with
    | ok v => rw [hr] at herr; simp [Except.isOk, Except.toBool] at herr
    | error e => simp [detectMotion, hr]
  refine ⟨hz, ?_⟩
  have hs : sampledStrength st video = 0 := by
    simp [sampledStrength, hz]
  have hle : ¬ effectiveThreshold sess.motion_threshold
      < sampledStrength st video := by
    rw [hs]; exact not_lt.mpr hthr
  simp [checkMotionAndCapture, hp, hle]

def sessC9 : Session :=
  { id := 4, session_type := some "motion_detection",
    motion_threshold := some (1/5), start_time := 0 }

def stC9 : CaptureState :=
  { prevFrame := some { data := [(200, 200, 200)], readable := false },
    motionDetected := false, lastMotionStrength := 0 }

/-- Witness for `C9_error_yields_zero`: an unreadable previous frame makes
the comparison throw; the estimator still returns `0` and the tick stays
idle. -/
theorem C9_witness :
    detectMotion { data := [(1, 2, 3)], readable := true } stC9.prevFrame
      = some 0 ∧
    (checkMotionAndCapture sessC9 stC9
      { data := [(1, 2, 3)], readable := true }).2 = TickAction.idle :=
  C9_error_yields_zero sessC9 stC9 { data := [(1, 2, 3)], readable := true }
    { data := [(200, 200, 200)], readable := false }
    rfl rfl (by norm_num [sessC9, effectiveThreshold])

/-- Claim C10: motion-triggered dispatch is gated on the session mode — for
any session whose `session_type` is absent or different from
`motion_detection`, `sendFrameForMotionDetection` posts nothing, whatever
the sampled strength. -/
theorem C10_session_type_gates_dispatch (s : Session) (hv hc : Bool)
    (strength : ℚ) (h : s.session_type ≠ some "motion_detection") :
    sendFrameForMotionDetection (some s) hv hc strength = none := by
  cases hst : s.session_type with
  | none => cases hv <;> cases hc <;> simp [sendFrameForMotionDetection, hst]
  | some ty =>
    have hty : ty ≠ "motion_detection" := by
      intro e
      exact h (by rw [hst, e])
    by_cases he : ty = ""
    · cases hv <;> cases hc <;>
        simp [sendFrameForMotionDetection, hst, he]
    · cases hv <;> cases hc <;>
        simp [sendFrameForMotionDetection, hst, he, hty]

/-- Witness for `C10_session_type_gates_dispatch`: a `standard` session never
posts an auto-captured frame, even at strength `1/2 > 0.2`. -/
theorem C10_witness :
    Session.session_type
      { id := 5, session_type := some "standard",
        motion_threshold := some (1/5), start_time := 0 }
      ≠ some "motion_detection" ∧
    sendFrameForMotionDetection
      (some { id := 5, session_type := some "standard",
              motion_threshold := some (1/5), start_time := 0 })
      true true (1/2) = none :=
  ⟨by decide,
   C10_session_type_gates_dispatch
    { id := 5, session_type := some "standard",
      motion_threshold := some (1/5), start_time := 0 }
    true true (1/2) (by decide)⟩

/-! ## Stream lifecycle and teardown
From `Myweb/src/LiveVideoStream.jsx`, lines 33-43 (the session-lifecycle
effect with its cleanup) and lines 107-130 (`stopVideoStream`).  The video
element is always rendered by the component, so `videoRef` is modelled as
present; `videoSrc` is whether its `srcObject` is set. -/

structure Track where
  trackId : Nat
  stopped : Bool
  deriving DecidableEq, Repr

structure StreamState where
  tracks : List Track
  streamHeld : Bool
  videoSrc : Bool
  isStreaming : Bool
  captureInterval : Option Nat
  motionDetected : Bool
  lastMotionTime : Option Int
  prevFrame : Option Frame
  deriving DecidableEq, Repr

def stopTrack (t : Track) : Track := { t with stopped := true }

/-- `stopFrameCapture`: clear the capture interval. -/
def stopFrameCapture (s : StreamState) : StreamState :=
  { s with captureInterval := none }

/-- `stopVideoStream` (lines 107-130): stop every track of the held stream
and drop the reference, clear the video element's `srcObject`, stop
streaming, clear the capture interval, and reset the motion state including
the stored previous frame. -/
def stopVideoStream (s : StreamState) : StreamState :=
  let s1 :=
    if s.streamHeld then
      { s with tracks := s.tracks.map stopTrack, streamHeld := false }
    else s
  let s2 := { s1 with videoSrc := false, isStreaming := false }
  let s3 := stopFrameCapture s2
  { s3 with motionDetected := false, lastMotionTime := none,
            prevFrame := none }

/-- The session-lifecycle effect body (lines 33-38): start the stream when a
session is active, otherwise call `stopVideoStream`.  Starting touches the
camera acquisition path, which this claim is not about; it is modelled as
leaving the state unchanged. -/
def sessionEffect (isSessionActive : Bool) (currentSession : Option Session)
    (s : StreamState) : StreamState :=
  if isSessionActive && currentSession.isSome then s else stopVideoStream s

/-- The effect's cleanup (lines 40-42), run when the component is torn
down. -/
def effectCleanup (s : StreamState) : StreamState :=
  stopVideoStream s

/-- The camera resource is released: every track stopped, the stream
reference dropped, the video element's source cleared, streaming and the
capture interval off, and the stored previous frame discarded. -/
def cameraReleased (s : StreamState) : Bool :=
  s.tracks.all (fun t => t.stopped) && !s.streamHeld && !s.videoSrc
    && !s.isStreaming && s.captureInterval.isNone && s.prevFrame.isNone

theorem stopVideoStream_releases (s : StreamState)
    (h : s.streamHeld = true) :
    cameraReleased (stopVideoStream s) = true := by
  simp [stopVideoStream, stopFrameCapture, cameraReleased, h, stopTrack,
    List.all_eq_true]

/-- Claim C8: on every exit path — the session ending (the lifecycle
effect's else branch), the component being torn down (the effect cleanup),
or the stream being stopped directly (the stop button calls
`stopVideoStream`) — the camera is released: all media tracks of the held
stream are stopped, the video source is cleared, and the stored previous
frame is discarded. -/
theorem C8_teardown_releases_camera (s : StreamState) (active : Bool)
    (sess : Option Session) (hheld : s.streamHeld = true)
    (hexit : active = false ∨ sess = none) :
    cameraReleased (stopVideoStream s) = true ∧
    sessionEffect active sess s = stopVideoStream s ∧
    cameraReleased (effectCleanup s) = true := by
  refine ⟨stopVideoStream_releases s hheld, ?_, stopVideoStream_releases s hheld⟩
  rcases hexit with h | h <;> simp [sessionEffect, h]

/-- Witness for `C8_teardown_releases_camera`: a live state with one running
track, a held stream, a set video source and a stored previous frame is
fully released on all three exit paths. -/
theorem C8_witness :
    cameraReleased (stopVideoStream
      { tracks := [{ trackId := 1, stopped := false }], streamHeld := true,
        videoSrc := true, isStreaming := true, captureInterval := some 1,
        motionDetected := true, lastMotionTime := some 50,
        prevFrame := some { data := [(0, 0, 0)], readable := true } }) = true ∧
    sessionEffect false none
      { tracks := [{ trackId := 1, stopped := false }], streamHeld := true,
        videoSrc := true, isStreaming := true, captureInterval := some 1,
        motionDetected := true, lastMotionTime := some 50,
        prevFrame := some { data := [(0, 0, 0)], readable := true } }
      = stopVideoStream
      { tracks := [{ trackId := 1, stopped := false }], streamHeld := true,
        videoSrc := true, isStreaming := true, captureInterval := some 1,
        motionDetected := true, lastMotionTime := some 50,
        prevFrame := some { data := [(0, 0, 0)], readable := true } } ∧
    cameraReleased (effectCleanup
      { tracks := [{ trackId := 1, stopped := false }], streamHeld := true,
        videoSrc := true, isStreaming := true, captureInterval := some 1,
        motionDetected := true, lastMotionTime := some 50,
        prevFrame := some { data := [(0, 0, 0)], readable := true } }) = true :=
  C8_teardown_releases_camera
    { tracks := [{ trackId := 1, stopped := false }], streamHeld := true,
      videoSrc := true, isStreaming := true, captureInterval := some 1,
      motionDetected := true, lastMotionTime := some 50,
      prevFrame := some { data := [(0, 0, 0)], readable := true } }
    false none rfl (Or.inl rfl)

end Webrecog
